import Mathlib

/-!
Verification of the BPF parameter code generator
(`pkg/dynamicinstrumentation/codegen/codegen.go`).

The Go source is shallowly embedded: every function of `codegen.go` that the
claims touch is translated into a Lean definition of the same name.  The
`text/template` machinery is modelled abstractly: the template text constants
(`headerTemplateText`, `sliceRegisterTemplateText`, ...) are defined in a file
of the repository that is not part of the sources given here, and the spec
(§4.5) describes them as a closed set of pure, branch-free substitution
templates.  Accordingly a successful `Parse`/`Execute` of one of these fixed
constants is modelled as total, and "executing template `t` against context
`c` and writing the result to the buffer" is modelled as appending the tagged
chunk `Chunk.param t c` (resp. a wrapper chunk) to the output list.  The
output buffer (`bytes.Buffer` / `io.Writer`) is modelled by the list of chunks
written to it, in order.  Go `error` values are modelled by `Except String`
carrying the exact error message of the source.
-/

namespace Codegen

/-- `ditypes.Location`, restricted to the two fields `codegen.go` reads:
`InReg` and `NeedsDereference`. -/
structure Location where
  inReg : Bool
  needsDereference : Bool
deriving DecidableEq, Repr

/-- `ditypes.NotCaptureReason` (the spec's `CaptureVeto`): the zero value
(capture allowed) and the two veto markers `Unsupported` and
`FieldLimitReached` that `codegen.go` compares against. -/
inductive NotCaptureReason where
  | none
  | unsupported
  | fieldLimitReached
deriving DecidableEq, Repr

/-- `ditypes.Parameter`, restricted to the fields `codegen.go` reads:
`Name`, `Type`, `Kind`, `Location`, `NotCaptureReason`, `ParameterPieces`. -/
inductive Parameter where
  | mk (name : String) (typeName : String) (kind : Nat)
       (location : Location) (notCaptureReason : NotCaptureReason)
       (parameterPieces : List Parameter)
deriving Repr

def Parameter.name : Parameter → String
  | .mk n _ _ _ _ _ => n

def Parameter.typeName : Parameter → String
  | .mk _ t _ _ _ _ => t

def Parameter.kind : Parameter → Nat
  | .mk _ _ k _ _ _ => k

def Parameter.location : Parameter → Location
  | .mk _ _ _ l _ _ => l

def Parameter.notCaptureReason : Parameter → NotCaptureReason
  | .mk _ _ _ _ r _ => r

def Parameter.parameterPieces : Parameter → List Parameter
  | .mk _ _ _ _ _ ps => ps

/-- Numeric values of the Go `reflect.Kind` constants used by `codegen.go`
(`param.Kind` is a `uint` holding a `reflect.Kind`). -/
def reflectArray : Nat := 17

def reflectPointer : Nat := 22

def reflectSlice : Nat := 23

def reflectString : Nat := 24

def reflectStruct : Nat := 25

/-- Identity of a template constant of `codegen.go`; one constructor per
`...TemplateText` constant referenced by the dispatch functions. -/
inductive TemplateId where
  | headerTemplate
  | stringRegisterHeaderTemplate
  | stringStackHeaderTemplate
  | sliceRegisterHeaderTemplate
  | sliceStackHeaderTemplate
  | stringLengthRegisterTemplate
  | stringLengthStackTemplate
  | sliceLengthRegisterTemplate
  | sliceLengthStackTemplate
  | unsupportedTypeTemplate
  | cutForFieldLimitTemplate
  | pointerRegisterTemplate
  | pointerStackTemplate
  | stringRegisterTemplate
  | stringStackTemplate
  | sliceRegisterTemplate
  | sliceStackTemplate
  | normalValueRegisterTemplate
  | normalValueStackTemplate
deriving DecidableEq, Repr

/-- One template execution written to the output buffer: the template that was
executed together with the substitution context it was executed against
(a `Parameter`, a `sliceHeaderWrapper`, or a `stringHeaderWrapper`; the
wrapper fields are inlined into the constructor). -/
inductive Chunk where
  | param (t : TemplateId) (p : Parameter)
  | sliceWrapper (t : TemplateId) (p : Parameter)
      (sliceTypeHeaderText : List Chunk) (sliceLengthText : List Chunk)
  | stringWrapper (t : TemplateId) (p : Parameter)
      (stringLengthText : List Chunk)
deriving Repr

/-- `resolveHeaderTemplate`.  Parsing of the fixed template constants is
modelled as total, so the Go `(*template.Template, error)` return becomes a
plain `TemplateId`. -/
def resolveHeaderTemplate (param : Parameter) : TemplateId :=
  if param.kind = reflectString then
    if param.location.inReg then .stringRegisterHeaderTemplate
    else .stringStackHeaderTemplate
  else if param.kind = reflectSlice then
    if param.location.inReg then .sliceRegisterHeaderTemplate
    else .sliceStackHeaderTemplate
  else .headerTemplate

/-- `generateStringLengthHeader`: executes the register- or stack-flavored
string length template, chosen by the length piece's own `Location.InReg`,
against the length piece. -/
def generateStringLengthHeader (stringLengthParamPiece : Parameter) : List Chunk :=
  if stringLengthParamPiece.location.inReg then
    [Chunk.param .stringLengthRegisterTemplate stringLengthParamPiece]
  else
    [Chunk.param .stringLengthStackTemplate stringLengthParamPiece]

/-- `generateSliceLengthHeader`: executes the register- or stack-flavored
slice length template, chosen by the length piece's own `Location.InReg`,
against the length piece. -/
def generateSliceLengthHeader (sliceLengthParamPiece : Parameter) : List Chunk :=
  if sliceLengthParamPiece.location.inReg then
    [Chunk.param .sliceLengthRegisterTemplate sliceLengthParamPiece]
  else
    [Chunk.param .sliceLengthStackTemplate sliceLengthParamPiece]

/-- `generateStringHeader`: exactly two pieces are required; the length
header is generated for the second piece into its own buffer, and the outer
header template resolved for the string parameter is executed against the
`stringHeaderWrapper` carrying that length text.  (The Go nil-pointer check
has no counterpart on Lean values.) -/
def generateStringHeader (stringParam : Parameter) : Except String (List Chunk) :=
  match stringParam.parameterPieces with
  | [_dataPiece, lengthPiece] =>
    let lengthText := generateStringLengthHeader lengthPiece
    .ok [Chunk.stringWrapper (resolveHeaderTemplate stringParam) stringParam lengthText]
  | pieces =>
    .error ("invalid string parameter when generating header code (pieces len "
      ++ toString pieces.length ++ ")")

mutual

/-- `generateHeaderText`: dispatches on `reflect.Kind(param.Kind)` — slices
and strings go to their composite generators, every other kind executes the
resolved header template against the parameter itself and then recursively
emits the headers of its pieces (if any). -/
def generateHeaderText (param : Parameter) : Except String (List Chunk) :=
  if param.kind = reflectSlice then
    generateSliceHeader param
  else if param.kind = reflectString then
    generateStringHeader param
  else
    let chunk := Chunk.param (resolveHeaderTemplate param) param
    if param.parameterPieces.length ≠ 0 then
      match generateHeadersText param.parameterPieces with
      | .ok rest => .ok (chunk :: rest)
      | .error e => .error e
    else
      .ok [chunk]
termination_by (sizeOf param, 1)
decreasing_by
  all_goals first
    | exact Prod.Lex.right _ Nat.zero_lt_one
    | (apply Prod.Lex.left
       cases param with
       | mk n t k l r ps => simp [Parameter.parameterPieces])

/-- `generateSliceHeader`: exactly two pieces are required; the element-type
header is generated recursively into its own buffer, the length header into
another, and the outer header template resolved for the slice parameter is
executed against the `sliceHeaderWrapper` carrying both texts. -/
def generateSliceHeader (slice : Parameter) : Except String (List Chunk) :=
  match h : slice.parameterPieces with
  | [elemPiece, lengthPiece] =>
    match generateHeaderText elemPiece with
    | .error e => .error e
    | .ok typeHeaderText =>
      let lengthText := generateSliceLengthHeader lengthPiece
      .ok [Chunk.sliceWrapper (resolveHeaderTemplate slice) slice typeHeaderText lengthText]
  | _ => .error "invalid slice parameter when generating header code"
termination_by (sizeOf slice, 0)
decreasing_by
  apply Prod.Lex.left
  have hlt : sizeOf slice.parameterPieces < sizeOf slice := by
    cases slice with
    | mk n t k l r ps => simp [Parameter.parameterPieces]
  rw [h] at hlt
  simp only [List.cons.sizeOf_spec, List.nil.sizeOf_spec] at hlt
  omega

/-- `generateHeadersText`: emits the header of each parameter in order,
aborting at the first error. -/
def generateHeadersText (params : List Parameter) : Except String (List Chunk) :=
  match params with
  | [] => .ok []
  | p :: rest =>
    match generateHeaderText p with
    | .error e => .error e
    | .ok c =>
      match generateHeadersText rest with
      | .error e => .error e
      | .ok more => .ok (c ++ more)
termination_by (sizeOf params, 0)
decreasing_by
  all_goals
    apply Prod.Lex.left
    simp only [List.cons.sizeOf_spec]
    omega

end

/-- `cleanupTypeName`: `strings.TrimPrefix(s, "*")` — removes one leading
`*` if present, otherwise returns the string unchanged.  (Strings are
handled through their character lists.) -/
def cleanupTypeName (s : String) : String :=
  match s.data with
  | c :: rest => if c = '*' then String.mk rest else s
  | [] => s

/-- The parameter as it is passed to `template.Execute` in
`generateParameterText`, after the in-place `param.Type = cleanupTypeName(param.Type)`. -/
def withCleanedTypeName : Parameter → Parameter
  | .mk n ty k loc r pieces => .mk n (cleanupTypeName ty) k loc r pieces

/-- `resolveRegisterParameterTemplate` — including the (unreachable) final
error return of the source. -/
def resolveRegisterParameterTemplate (param : Parameter) : Except String TemplateId :=
  let needsDereference := param.location.needsDereference
  let stringType := param.kind = reflectString
  let sliceType := param.kind = reflectSlice
  if needsDereference then
    .ok .pointerRegisterTemplate
  else if stringType then
    .ok .stringRegisterTemplate
  else if sliceType then
    .ok .sliceRegisterTemplate
  else if !needsDereference then
    .ok .normalValueRegisterTemplate
  else
    .error "no template created: invalid or unsupported type"

/-- `resolveStackParameterTemplate` — including the (unreachable) final
error return of the source. -/
def resolveStackParameterTemplate (param : Parameter) : Except String TemplateId :=
  let needsDereference := param.location.needsDereference
  let stringType := param.kind = reflectString
  let sliceType := param.kind = reflectSlice
  if needsDereference then
    .ok .pointerStackTemplate
  else if stringType then
    .ok .stringStackTemplate
  else if sliceType then
    .ok .sliceStackTemplate
  else if !needsDereference then
    .ok .normalValueStackTemplate
  else
    .error "no template created: invalid or unsupported type"

/-- `resolveParameterTemplate`: the veto check precedes the
register/stack shape dispatch. -/
def resolveParameterTemplate (param : Parameter) : Except String TemplateId :=
  let notSupported := param.notCaptureReason = NotCaptureReason.unsupported
  let cutForFieldLimit := param.notCaptureReason = NotCaptureReason.fieldLimitReached
  if notSupported then
    .ok .unsupportedTypeTemplate
  else if cutForFieldLimit then
    .ok .cutForFieldLimitTemplate
  else if param.location.inReg then
    resolveRegisterParameterTemplate param
  else
    resolveStackParameterTemplate param

/-- `generateParameterText`: Array/Struct/Pointer kinds return immediately
with no output; otherwise the parameter template is resolved, the type name
is cleaned up, and the template is executed against the (cleaned) parameter. -/
def generateParameterText (param : Parameter) : Except String (List Chunk) :=
  if param.kind = reflectArray ∨ param.kind = reflectStruct ∨ param.kind = reflectPointer then
    .ok []
  else
    match resolveParameterTemplate param with
    | .error e => .error e
    | .ok t => .ok [Chunk.param t (withCleanedTypeName param)]

/-- `generateParametersText`: emits the body text of each parameter in
order, aborting at the first error. -/
def generateParametersText : List Parameter → Except String (List Chunk)
  | [] => .ok []
  | p :: rest =>
    match generateParameterText p with
    | .error e => .error e
    | .ok c =>
      match generateParametersText rest with
      | .error e => .error e
      | .ok more => .ok (c ++ more)

mutual

/-- Modelled from the spec: `applyCaptureDepth` (Capture Limiter, depth pass,
spec §4.1) is called by `GenerateBPFParamsCode` but its body is not among the
given sources.  Per the spec, a node beyond the maximum reference depth is
marked `Unsupported` and kept as an empty-value placeholder whose pieces are
not expanded further; shallower nodes are untouched. -/
def applyCaptureDepthNode (d : Nat) : Parameter → Parameter
  | .mk n ty k loc r pieces =>
    if d = 0 then .mk n ty k loc NotCaptureReason.unsupported []
    else .mk n ty k loc r (applyCaptureDepthList (d - 1) pieces)

/-- Modelled from the spec: depth limiting applied to a list of sibling
nodes, all at the same remaining budget. -/
def applyCaptureDepthList (d : Nat) : List Parameter → List Parameter
  | [] => []
  | p :: rest => applyCaptureDepthNode d p :: applyCaptureDepthList d rest

end

/-- Modelled from the spec: the whole depth-limiting pass over the top-level
parameters of a function. -/
def applyCaptureDepth (params : List Parameter) (maxReferenceDepth : Nat) :
    List Parameter :=
  applyCaptureDepthList maxReferenceDepth params

/-- Modelled from the spec: the configured struct field-count cap (spec §4.1,
"a configured cap L"); its concrete value is immaterial to the claims. -/
def maxFieldCount : Nat := 20

def setNotCaptureReason (r : NotCaptureReason) : Parameter → Parameter
  | .mk n ty k loc _ pieces => .mk n ty k loc r pieces

/-- Modelled from the spec: the fields of a struct past the cap are marked
`FieldLimitReached`; the first `maxFieldCount` fields and the order of all
fields are untouched. -/
def markFieldsPastLimit (cap : Nat) (fields : List Parameter) : List Parameter :=
  fields.enum.map (fun ip =>
    if ip.1 < cap then ip.2 else setNotCaptureReason NotCaptureReason.fieldLimitReached ip.2)

mutual

/-- Modelled from the spec: `applyFieldCountLimit` (Capture Limiter, field
pass, spec §4.1) is called by `GenerateBPFParamsCode` but its body is not
among the given sources.  Per the spec, for `Struct` shapes with more fields
than the cap, fields past the cap are marked `FieldLimitReached`, order
preserved. -/
def applyFieldCountLimitNode : Parameter → Parameter
  | .mk n ty k loc r pieces =>
    let pieces := applyFieldCountLimitList pieces
    if k = reflectStruct ∧ maxFieldCount < pieces.length then
      .mk n ty k loc r (markFieldsPastLimit maxFieldCount pieces)
    else
      .mk n ty k loc r pieces

/-- Modelled from the spec: field-count limiting applied to sibling nodes. -/
def applyFieldCountLimitList : List Parameter → List Parameter
  | [] => []
  | p :: rest => applyFieldCountLimitNode p :: applyFieldCountLimitList rest

end

/-- Modelled from the spec: the whole field-count-limiting pass. -/
def applyFieldCountLimit (params : List Parameter) : List Parameter :=
  applyFieldCountLimitList params

mutual

/-- Modelled from the spec: `flattenParameters` (Flattener, spec §4.2) is
called by `GenerateBPFParamsCode` but its body is not among the given
sources.  Per the spec it linearizes a parameter with its nested pieces into
a deterministic order exposing every node exactly once, parent before
children ("declare before use"). -/
def flattenParameter : Parameter → List Parameter
  | .mk n ty k loc r pieces =>
    .mk n ty k loc r pieces :: flattenParameterList pieces

/-- Modelled from the spec: flattening of sibling nodes, in order. -/
def flattenParameterList : List Parameter → List Parameter
  | [] => []
  | p :: rest => flattenParameter p ++ flattenParameterList rest

end

/-- Modelled from the spec: `flattenParameters` on a list of parameters. -/
def flattenParameters (params : List Parameter) : List Parameter :=
  flattenParameterList params

/-- `ditypes.InstrumentationOptions`, restricted to the fields
`GenerateBPFParamsCode` reads. -/
structure InstrumentationOptions where
  captureParameters : Bool
  maxReferenceDepth : Nat
deriving Repr

/-- `ditypes.InstrumentationInfo`, restricted to the fields
`GenerateBPFParamsCode` reads and writes.  The stored source text is the
list of chunks written to the buffer. -/
structure InstrumentationInfo where
  instrumentationOptions : InstrumentationOptions
  bpfParametersSourceCode : List Chunk
deriving Repr

/-- `ditypes.Probe`, restricted to the fields `GenerateBPFParamsCode`
reads and writes. -/
structure Probe where
  funcName : String
  instrumentationInfo : InstrumentationInfo
deriving Repr

/-- `ditypes.ProcessInfo`: the only use in `GenerateBPFParamsCode` is the
map lookup `procInfo.TypeMap.Functions[probe.FuncName]`, modelled as a
function from function name to its top-level parameter list (a missing key
is the empty list, like a nil slice). -/
structure ProcessInfo where
  functions : String → List Parameter

/-- The outcome of `GenerateBPFParamsCode`: the returned error (if any), the
probe after the call (Go mutates it in place), and the messages passed to
`log.Info`. -/
structure GenResult where
  err : Option String
  probe : Probe
  logs : List String

/-- The body of the `for i := range params` loop of `GenerateBPFParamsCode`,
iterated over the limited top-level parameters: each one is flattened and its
headers, then its bodies, are appended to the shared buffer; the first error
aborts. -/
def generateCodeForParams : List Parameter → Except String (List Chunk)
  | [] => .ok []
  | p :: rest =>
    let flattenedParams := flattenParameters [p]
    match generateHeadersText flattenedParams with
    | .error e => .error e
    | .ok headerChunks =>
      match generateParametersText flattenedParams with
      | .error e => .error e
      | .ok bodyChunks =>
        match generateCodeForParams rest with
        | .error e => .error e
        | .ok more => .ok (headerChunks ++ bodyChunks ++ more)

def setSourceCode (probe : Probe) (out : List Chunk) : Probe :=
  { probe with instrumentationInfo :=
      { probe.instrumentationInfo with bpfParametersSourceCode := out } }

/-- `GenerateBPFParamsCode`.  When capture is enabled, the function's
top-level parameters are depth- and field-limited and then generated one by
one into the buffer; an error returns early, before the assignment to
`probe.InstrumentationInfo.BPFParametersSourceCode`, leaving the probe
untouched.  When capture is disabled, only `log.Info` runs and the (empty)
buffer is stored. -/
def GenerateBPFParamsCode (procInfo : ProcessInfo) (probe : Probe) : GenResult :=
  if probe.instrumentationInfo.instrumentationOptions.captureParameters then
    match generateCodeForParams
      (applyFieldCountLimit
        (applyCaptureDepth (procInfo.functions probe.funcName)
          probe.instrumentationInfo.instrumentationOptions.maxReferenceDepth)) with
    | .error e => { err := some e, probe := probe, logs := [] }
    | .ok out => { err := Option.none, probe := setSourceCode probe out, logs := [] }
  else
    { err := Option.none, probe := setSourceCode probe [],
      logs := ["Not capturing parameters"] }

mutual

/-- The exact success condition of header generation, read off the source:
a `Slice` node needs exactly two pieces and a well-formed element subtree
(its length piece is only ever passed to the total length template), a
`String` node needs exactly two pieces, and any other node recurses into
all of its pieces. -/
def wellFormedHeader (p : Parameter) : Bool :=
  if p.kind = reflectSlice then
    match h : p.parameterPieces with
    | [elemPiece, _] => wellFormedHeader elemPiece
    | _ => false
  else if p.kind = reflectString then
    p.parameterPieces.length == 2
  else
    wellFormedHeaderList p.parameterPieces
termination_by sizeOf p
decreasing_by
  · have hlt : sizeOf p.parameterPieces < sizeOf p := by
      cases p with
      | mk n t k l r ps => simp [Parameter.parameterPieces]
    rw [h] at hlt
    simp only [List.cons.sizeOf_spec, List.nil.sizeOf_spec] at hlt
    omega
  · cases p with
    | mk n t k l r ps => simp [Parameter.parameterPieces]

/-- `wellFormedHeader` over sibling nodes. -/
def wellFormedHeaderList (ps : List Parameter) : Bool :=
  match ps with
  | [] => true
  | p :: rest => wellFormedHeader p && wellFormedHeaderList rest
termination_by sizeOf ps
decreasing_by
  · simp only [List.cons.sizeOf_spec]; omega
  · simp only [List.cons.sizeOf_spec]; omega

end

/-- The success condition of `generateSliceHeader` alone: exactly two pieces
with a well-formed element subtree. -/
def sliceElemWF (p : Parameter) : Bool :=
  match p.parameterPieces with
  | [elemPiece, _] => wellFormedHeader elemPiece
  | _ => false

/-- The body-template matrix of the spec (§4.4 step 2): the eight templates
keyed by shape category (pointer read, string read, slice read, plain value)
and location flavor (register, stack). -/
def bodyTemplateMatrix : List TemplateId :=
  [.pointerRegisterTemplate, .pointerStackTemplate,
   .stringRegisterTemplate, .stringStackTemplate,
   .sliceRegisterTemplate, .sliceStackTemplate,
   .normalValueRegisterTemplate, .normalValueStackTemplate]

/-- The body-template choice exactly as the spec words it (§4.4 step 2):
dereference wins first, then string, then slice, then plain value, each in
the register or stack flavor given by `Location.InRegister`.  Reference
definition, to be compared against `resolveParameterTemplate` from the
source. -/
def specBodyTemplate (p : Parameter) : TemplateId :=
  if p.location.needsDereference then
    if p.location.inReg then .pointerRegisterTemplate else .pointerStackTemplate
  else if p.kind = reflectString then
    if p.location.inReg then .stringRegisterTemplate else .stringStackTemplate
  else if p.kind = reflectSlice then
    if p.location.inReg then .sliceRegisterTemplate else .sliceStackTemplate
  else
    if p.location.inReg then .normalValueRegisterTemplate else .normalValueStackTemplate

/-- The parameter with only `Location.InReg` replaced. -/
def setInReg : Parameter → Bool → Parameter
  | .mk n ty k ⟨_, nd⟩ r pieces, b => .mk n ty k ⟨b, nd⟩ r pieces

/-- A pointer-shaped parameter carrying the `Unsupported` veto. -/
def c1VetoedPointer : Parameter :=
  .mk "ptr" "*int" reflectPointer ⟨true, false⟩ .unsupported []

/-- A primitive parameter carrying the `Unsupported` veto. -/
def c1VetoedPrimitive : Parameter :=
  .mk "n" "uint64" 11 ⟨false, true⟩ .unsupported []

/-- A slice parameter with exactly two pieces whose element piece is a
string with zero pieces. -/
def c2SliceWithBadElem : Parameter :=
  .mk "xs" "[]string" reflectSlice ⟨true, false⟩ .none
    [.mk "elem" "string" reflectString ⟨true, false⟩ .none [],
     .mk "len" "int" 2 ⟨true, false⟩ .none []]

/-- A slice parameter with a single piece. -/
def c2SliceOnePiece : Parameter :=
  .mk "ys" "[]int" reflectSlice ⟨false, false⟩ .none
    [.mk "elem" "int" 2 ⟨false, false⟩ .none []]

/-- A veto-free primitive parameter on the stack. -/
def c3StackPrimitive : Parameter :=
  .mk "x" "float64" 14 ⟨false, false⟩ .none []

/-- A struct parameter with a field piece, on the stack, carrying a veto. -/
def c4StructParam : Parameter :=
  .mk "s" "main.T" reflectStruct ⟨false, true⟩ .fieldLimitReached
    [.mk "f" "int" 2 ⟨false, false⟩ .none []]

/-- A register-resident string parameter whose location needs a
dereference. -/
def c5DerefString : Parameter :=
  .mk "sp" "*string" reflectString ⟨true, true⟩ .none []

/-- A register-resident slice of a primitive element, with its length piece
on the stack. -/
def c6Slice : Parameter :=
  .mk "zs" "[]int" reflectSlice ⟨true, false⟩ .none
    [.mk "elem" "int" 2 ⟨true, false⟩ .none [],
     .mk "len" "int" 2 ⟨false, false⟩ .none []]

/-- The element piece of `c6Slice`. -/
def c6Elem : Parameter := .mk "elem" "int" 2 ⟨true, false⟩ .none []

/-- The length piece of `c6Slice`. -/
def c6Len : Parameter := .mk "len" "int" 2 ⟨false, false⟩ .none []

/-- A probe whose instrumentation options disable parameter capture. -/
def c7Probe : Probe :=
  { funcName := "main.target",
    instrumentationInfo :=
      { instrumentationOptions := { captureParameters := false, maxReferenceDepth := 3 },
        bpfParametersSourceCode := [Chunk.param .headerTemplate c3StackPrimitive] } }

/-- A process info whose type map holds a malformed slice for the probed
function. -/
def c7ProcInfo : ProcessInfo :=
  { functions := fun _ => [c2SliceOnePiece] }

/-- A probe with parameter capture enabled. -/
def c8Probe : Probe :=
  { funcName := "main.broken",
    instrumentationInfo :=
      { instrumentationOptions := { captureParameters := true, maxReferenceDepth := 4 },
        bpfParametersSourceCode := [Chunk.param .headerTemplate c3StackPrimitive] } }

/-- A slice parameter with no pieces, which makes header generation fail. -/
def c8BadSlice : Parameter :=
  .mk "bad" "[]int" reflectSlice ⟨true, false⟩ .none []

/-- A process info mapping the probed function to the malformed slice. -/
def c8ProcInfo : ProcessInfo :=
  { functions := fun _ => [c8BadSlice] }

/-- A register-resident pointer-typed primitive read. -/
def c9Param : Parameter :=
  .mk "w" "*Widget" 11 ⟨true, true⟩ .none []

/-- A stack-resident primitive parameter with struct-field pieces. -/
def c10Param : Parameter :=
  .mk "b" "bool" 1 ⟨false, false⟩ .none []

/-- C4: for every parameter whose kind is Array, Struct or Pointer, body
generation emits no text and no error, whatever its location, veto and
pieces. -/
theorem c4_container_body_noop (p : Parameter)
    (hk : p.kind = reflectArray ∨ p.kind = reflectStruct ∨ p.kind = reflectPointer) :
    generateParameterText p = .ok [] := by
  unfold generateParameterText
  rw [if_pos hk]

theorem c4_container_body_noop_witness :
    generateParameterText c4StructParam = .ok [] :=
  c4_container_body_noop c4StructParam (Or.inr (Or.inl rfl))

/-- C3: for every parameter that reaches shape/location dispatch (no
capture veto), template resolution succeeds and the resolved template is one
of the eight templates of the body-template matrix: no shape/location
combination falls outside the matrix, none resolves to silent empty output
or to a template outside the matrix, and the only error the dispatch
functions can return is their explicit "no template created" message. -/
theorem c3_dispatch_never_silent (p : Parameter)
    (h : p.notCaptureReason = NotCaptureReason.none) :
    (resolveParameterTemplate p).isOk = true
    ∧ ∀ t, resolveParameterTemplate p = .ok t → t ∈ bodyTemplateMatrix := by
  unfold resolveParameterTemplate resolveRegisterParameterTemplate resolveStackParameterTemplate
  by_cases hr : p.location.inReg <;> by_cases hd : p.location.needsDereference <;>
    by_cases hs : p.kind = reflectString <;> by_cases hsl : p.kind = reflectSlice <;>
      simp_all [bodyTemplateMatrix, Except.isOk, Except.toBool]

theorem c3_dispatch_never_silent_witness :
    (resolveParameterTemplate c3StackPrimitive).isOk = true
    ∧ ∀ t, resolveParameterTemplate c3StackPrimitive = .ok t → t ∈ bodyTemplateMatrix :=
  c3_dispatch_never_silent c3StackPrimitive rfl

/-- C5: for every non-container parameter with no capture veto, body
template dispatch follows the spec's precedence: dereference first (pointer
read), then string read, then slice read, then plain value, each in the
register or stack flavor given by `Location.InRegister` — exactly the
reference definition `specBodyTemplate`. -/
theorem c5_dispatch_precedence (p : Parameter)
    (hveto : p.notCaptureReason = NotCaptureReason.none)
    (hk : ¬(p.kind = reflectArray ∨ p.kind = reflectStruct ∨ p.kind = reflectPointer)) :
    resolveParameterTemplate p = .ok (specBodyTemplate p) := by
  unfold resolveParameterTemplate resolveRegisterParameterTemplate
    resolveStackParameterTemplate specBodyTemplate
  by_cases hr : p.location.inReg <;> by_cases hd : p.location.needsDereference <;>
    by_cases hs : p.kind = reflectString <;> by_cases hsl : p.kind = reflectSlice <;>
      simp_all

theorem c5_dispatch_precedence_witness :
    resolveParameterTemplate c5DerefString = .ok (specBodyTemplate c5DerefString) :=
  c5_dispatch_precedence c5DerefString rfl (by decide)

/-- C10: for every parameter whose kind is neither String nor Slice, header
template resolution returns the single default header template, and flipping
only `Location.InReg` leaves the resolved template unchanged. -/
theorem c10_default_header_ignores_register (p : Parameter) (b : Bool)
    (h1 : p.kind ≠ reflectString) (h2 : p.kind ≠ reflectSlice) :
    resolveHeaderTemplate p = TemplateId.headerTemplate
    ∧ resolveHeaderTemplate (setInReg p b) = resolveHeaderTemplate p := by
  cases p with
  | mk n ty k loc r pieces =>
    cases loc with
    | mk ir nd =>
      simp_all [resolveHeaderTemplate, setInReg, Parameter.kind, Parameter.location]

theorem c10_default_header_ignores_register_witness :
    resolveHeaderTemplate c10Param = TemplateId.headerTemplate
    ∧ resolveHeaderTemplate (setInReg c10Param true) = resolveHeaderTemplate c10Param :=
  c10_default_header_ignores_register c10Param true (by decide) (by decide)

/-- C1 counterexample: a pointer-shaped parameter carrying the
`Unsupported` veto reaches body generation and produces no output at all —
the Array/Struct/Pointer skip runs before the veto check, so no
"unsupported type" stub is emitted for it, contrary to the claim's
"including when the Shape is Array, Struct, or Pointer". -/
theorem c1_counterexample :
    c1VetoedPointer.notCaptureReason = NotCaptureReason.unsupported
    ∧ c1VetoedPointer.kind = reflectPointer
    ∧ generateParameterText c1VetoedPointer = .ok [] := by
  refine ⟨rfl, rfl, ?_⟩
  unfold generateParameterText
  rw [if_pos (by decide)]

/-- C1 (amended): for every vetoed parameter whose kind is not Array,
Struct or Pointer, body generation emits exactly the fixed stub selected by
the veto — the "unsupported type" stub for `Unsupported`, the "field limit
reached" stub for `FieldLimitReached` — and never a normal value read,
regardless of the parameter's remaining shape and location; parameters of
kind Array, Struct or Pointer are instead skipped before the veto check and
emit nothing. -/
theorem c1_veto_stub_except_containers (p : Parameter)
    (hk : ¬(p.kind = reflectArray ∨ p.kind = reflectStruct ∨ p.kind = reflectPointer)) :
    (p.notCaptureReason = NotCaptureReason.unsupported →
      generateParameterText p =
        .ok [Chunk.param TemplateId.unsupportedTypeTemplate (withCleanedTypeName p)])
    ∧ (p.notCaptureReason = NotCaptureReason.fieldLimitReached →
      generateParameterText p =
        .ok [Chunk.param TemplateId.cutForFieldLimitTemplate (withCleanedTypeName p)])
    ∧ ((p.kind = reflectArray ∨ p.kind = reflectStruct ∨ p.kind = reflectPointer) →
      generateParameterText p = .ok []) := by
  refine ⟨?_, ?_, fun hc => absurd hc hk⟩ <;> intro hv <;>
    unfold generateParameterText resolveParameterTemplate <;>
      rw [if_neg hk] <;> simp [hv]

theorem c1_veto_stub_except_containers_witness :
    generateParameterText c1VetoedPrimitive =
      .ok [Chunk.param TemplateId.unsupportedTypeTemplate (withCleanedTypeName c1VetoedPrimitive)] :=
  (c1_veto_stub_except_containers c1VetoedPrimitive (by decide)).1 rfl

/-- C9: type-label normalization strips exactly one leading star and
nothing else — `*Widget` becomes `Widget`, `Widget` stays `Widget`,
`**Widget` becomes `*Widget`, and in general one leading `*` is removed
when present while any other string is unchanged; the cleaned parameter
that body generation renders keeps the original kind, location, veto and
pieces, so only the printed type label is affected. -/
theorem c9_cleanup_type_name :
    cleanupTypeName "*Widget" = "Widget"
    ∧ cleanupTypeName "Widget" = "Widget"
    ∧ cleanupTypeName "**Widget" = "*Widget"
    ∧ (∀ s : List Char, cleanupTypeName (String.mk ('*' :: s)) = String.mk s)
    ∧ (∀ (c : Char) (s : List Char), c ≠ '*' →
        cleanupTypeName (String.mk (c :: s)) = String.mk (c :: s))
    ∧ (∀ p : Parameter,
        (withCleanedTypeName p).kind = p.kind
        ∧ (withCleanedTypeName p).location = p.location
        ∧ (withCleanedTypeName p).notCaptureReason = p.notCaptureReason
        ∧ (withCleanedTypeName p).parameterPieces = p.parameterPieces
        ∧ (withCleanedTypeName p).typeName = cleanupTypeName p.typeName)
    ∧ (∀ p : Parameter,
        ¬(p.kind = reflectArray ∨ p.kind = reflectStruct ∨ p.kind = reflectPointer) →
        generateParameterText p =
          (resolveParameterTemplate p).map (fun t => [Chunk.param t (withCleanedTypeName p)])) := by
  refine ⟨rfl, rfl, rfl, fun s => rfl, ?_, ?_, ?_⟩
  · intro c s hc
    show (if c = '*' then String.mk s else String.mk (c :: s)) = String.mk (c :: s)
    rw [if_neg hc]
  · intro p
    cases p with
    | mk n ty k loc r pieces =>
      simp [withCleanedTypeName, Parameter.kind, Parameter.location,
        Parameter.notCaptureReason, Parameter.parameterPieces, Parameter.typeName]
  · intro p hk
    unfold generateParameterText
    rw [if_neg hk]
    cases resolveParameterTemplate p <;> simp [Except.map]

theorem c9_cleanup_type_name_witness :
    cleanupTypeName "*Widget" = "Widget"
    ∧ cleanupTypeName (String.mk ['W']) = String.mk ['W']
    ∧ generateParameterText c9Param =
        (resolveParameterTemplate c9Param).map
          (fun t => [Chunk.param t (withCleanedTypeName c9Param)]) :=
  ⟨c9_cleanup_type_name.1,
   c9_cleanup_type_name.2.2.2.2.1 'W' [] (by decide),
   c9_cleanup_type_name.2.2.2.2.2.2 c9Param (by decide)⟩

/-- C7: when `CaptureParameters` is disabled, generation stores empty
source text on the probe, returns no error, and only emits the
informational "Not capturing parameters" log line — whatever the parameter
trees of the process hold. -/
theorem c7_disabled_capture (procInfo : ProcessInfo) (probe : Probe)
    (h : probe.instrumentationInfo.instrumentationOptions.captureParameters = false) :
    GenerateBPFParamsCode procInfo probe =
      { err := Option.none, probe := setSourceCode probe [],
        logs := ["Not capturing parameters"] }
    ∧ (GenerateBPFParamsCode procInfo probe).err = Option.none
    ∧ (GenerateBPFParamsCode procInfo
        probe).probe.instrumentationInfo.bpfParametersSourceCode = []
    ∧ (GenerateBPFParamsCode procInfo probe).logs = ["Not capturing parameters"] := by
  unfold GenerateBPFParamsCode
  rw [h]
  simp [setSourceCode]

theorem c7_disabled_capture_witness :
    GenerateBPFParamsCode c7ProcInfo c7Probe =
      { err := Option.none, probe := setSourceCode c7Probe [],
        logs := ["Not capturing parameters"] }
    ∧ (GenerateBPFParamsCode c7ProcInfo c7Probe).err = Option.none
    ∧ (GenerateBPFParamsCode c7ProcInfo
        c7Probe).probe.instrumentationInfo.bpfParametersSourceCode = []
    ∧ (GenerateBPFParamsCode c7ProcInfo c7Probe).logs = ["Not capturing parameters"] :=
  c7_disabled_capture c7ProcInfo c7Probe rfl

/-- C8: whenever generation fails, `GenerateBPFParamsCode` reports that
error and the probe — in particular its stored
`BPFParametersSourceCode` — is exactly what it was before the call: no
partially accumulated header or body text is stored. -/
theorem c8_error_leaves_probe_unchanged (procInfo : ProcessInfo) (probe : Probe)
    (e : String) (h : (GenerateBPFParamsCode procInfo probe).err = some e) :
    (GenerateBPFParamsCode procInfo probe).probe = probe
    ∧ (GenerateBPFParamsCode procInfo
        probe).probe.instrumentationInfo.bpfParametersSourceCode =
      probe.instrumentationInfo.bpfParametersSourceCode := by
  revert h
  unfold GenerateBPFParamsCode
  split
  · split
    · intro _
      exact ⟨rfl, rfl⟩
    · intro h
      exact absurd h (by simp)
  · intro h
    exact absurd h (by simp)

theorem generateSliceHeader_of_pieces {p a b : Parameter}
    (hp : p.parameterPieces = [a, b]) :
    generateSliceHeader p =
      match generateHeaderText a with
      | .error e => .error e
      | .ok th =>
        .ok [Chunk.sliceWrapper (resolveHeaderTemplate p) p th
          (generateSliceLengthHeader b)] := by
  cases p with
  | mk n ty k loc r pieces =>
    simp only [Parameter.parameterPieces] at hp
    subst hp
    rw [generateSliceHeader.eq_def]
    rfl

theorem generateSliceHeader_of_len_ne {p : Parameter}
    (hp : p.parameterPieces.length ≠ 2) :
    generateSliceHeader p =
      .error "invalid slice parameter when generating header code" := by
  cases p with
  | mk n ty k loc r pieces =>
    simp only [Parameter.parameterPieces] at hp
    rcases pieces with _ | ⟨a, _ | ⟨b, _ | ⟨c, rest⟩⟩⟩
    · rw [generateSliceHeader.eq_def]
      rfl
    · rw [generateSliceHeader.eq_def]
      rfl
    · simp at hp
    · rw [generateSliceHeader.eq_def]
      rfl

theorem generateStringHeader_of_len_ne {p : Parameter}
    (hp : p.parameterPieces.length ≠ 2) :
    generateStringHeader p =
      .error ("invalid string parameter when generating header code (pieces len "
        ++ toString p.parameterPieces.length ++ ")") := by
  rcases hpp : p.parameterPieces with _ | ⟨a, _ | ⟨b, _ | ⟨c, rest⟩⟩⟩ <;>
    simp_all [generateStringHeader]

theorem generateStringHeader_isOk (p : Parameter) :
    (generateStringHeader p).isOk = (p.parameterPieces.length == 2) := by
  rcases hp : p.parameterPieces with _ | ⟨a, _ | ⟨b, _ | ⟨c, rest⟩⟩⟩ <;>
    simp [generateStringHeader, hp, Except.isOk, Except.toBool]

/-- Header generation succeeds exactly on well-formed trees: every
`String`/`Slice` node reached by the traversal has exactly two pieces (and a
slice's element subtree is itself well-formed). -/
theorem generateHeaderText_isOk :
    ∀ param, (generateHeaderText param).isOk = wellFormedHeader param := by
  refine generateHeaderText.induct
    (fun param => (generateHeaderText param).isOk = wellFormedHeader param)
    (fun params => (generateHeadersText params).isOk = wellFormedHeaderList params)
    (fun slice => (generateSliceHeader slice).isOk = sliceElemWF slice)
    ?h1 ?h2 ?h3 ?h4 ?h5 ?h6 ?h7 ?h8 ?h9 ?h10 ?h11 ?h12
  case h1 =>
    intro param hk m3
    rw [generateHeaderText.eq_def, wellFormedHeader.eq_def, if_pos hk, if_pos hk, m3]
    rcases hp : param.parameterPieces with _ | ⟨a, _ | ⟨b, _ | ⟨c, rest⟩⟩⟩ <;>
      simp [sliceElemWF, hp]
  case h2 =>
    intro param hns hs
    rw [generateHeaderText.eq_def, wellFormedHeader.eq_def, if_neg hns, if_neg hns,
      if_pos hs, if_pos hs]
    exact generateStringHeader_isOk param
  case h3 =>
    intro param hns hnstr hlen rest heq m2
    rw [heq] at m2
    rw [generateHeaderText.eq_def, wellFormedHeader.eq_def, if_neg hns, if_neg hnstr,
      if_neg hns, if_neg hnstr, if_pos hlen, heq]
    simpa [Except.isOk, Except.toBool] using m2
  case h4 =>
    intro param hns hnstr hlen e heq m2
    rw [heq] at m2
    rw [generateHeaderText.eq_def, wellFormedHeader.eq_def, if_neg hns, if_neg hnstr,
      if_neg hns, if_neg hnstr, if_pos hlen, heq]
    simpa [Except.isOk, Except.toBool] using m2
  case h5 =>
    intro param hns hnstr hlen
    have hnil : param.parameterPieces = [] := by
      rcases hp : param.parameterPieces with _ | ⟨a, tail⟩
      · rfl
      · exact absurd (by rw [hp]; simp) hlen
    rw [generateHeaderText.eq_def, wellFormedHeader.eq_def, if_neg hns, if_neg hnstr,
      if_neg hns, if_neg hnstr, if_neg hlen, hnil, wellFormedHeaderList.eq_def]
    simp [Except.isOk, Except.toBool]
  case h6 =>
    show (generateHeadersText []).isOk = wellFormedHeaderList []
    rw [generateHeadersText.eq_def, wellFormedHeaderList.eq_def]
    simp [Except.isOk, Except.toBool]
  case h7 =>
    intro p rest e heq m1
    rw [heq] at m1
    have hw : wellFormedHeader p = false := by
      simpa [Except.isOk, Except.toBool] using m1.symm
    rw [generateHeadersText.eq_def, wellFormedHeaderList.eq_def]
    simp [heq, hw, Except.isOk, Except.toBool]
  case h8 =>
    intro p rest th hok e herr m1 m2
    rw [hok] at m1
    rw [herr] at m2
    have hw : wellFormedHeader p = true := by
      simpa [Except.isOk, Except.toBool] using m1.symm
    have hwl : wellFormedHeaderList rest = false := by
      simpa [Except.isOk, Except.toBool] using m2.symm
    rw [generateHeadersText.eq_def, wellFormedHeaderList.eq_def]
    simp [hok, herr, hw, hwl, Except.isOk, Except.toBool]
  case h9 =>
    intro p rest th hok more hmore m1 m2
    rw [hok] at m1
    rw [hmore] at m2
    have hw : wellFormedHeader p = true := by
      simpa [Except.isOk, Except.toBool] using m1.symm
    have hwl : wellFormedHeaderList rest = true := by
      simpa [Except.isOk, Except.toBool] using m2.symm
    rw [generateHeadersText.eq_def, wellFormedHeaderList.eq_def]
    simp [hok, hmore, hw, hwl, Except.isOk, Except.toBool]
  case h10 =>
    intro slice elemPiece lengthPiece hp e herr m1
    rw [herr] at m1
    have hw : wellFormedHeader elemPiece = false := by
      simpa [Except.isOk, Except.toBool] using m1.symm
    rw [generateSliceHeader_of_pieces hp, herr]
    simp [hp, sliceElemWF, hw, Except.isOk, Except.toBool]
  case h11 =>
    intro slice elemPiece lengthPiece hp th hok m1
    rw [hok] at m1
    have hw : wellFormedHeader elemPiece = true := by
      simpa [Except.isOk, Except.toBool] using m1.symm
    rw [generateSliceHeader_of_pieces hp, hok]
    simp [hp, sliceElemWF, hw, Except.isOk, Except.toBool]
  case h12 =>
    intro slice hnone
    have hlen : slice.parameterPieces.length ≠ 2 := by
      intro hl
      rcases hp : slice.parameterPieces with _ | ⟨a, _ | ⟨b, _ | ⟨c, rest⟩⟩⟩ <;>
        rw [hp] at hl <;> simp at hl
      exact hnone a b hp
    rw [generateSliceHeader_of_len_ne hlen]
    have hwf : sliceElemWF slice = false := by
      rcases hp : slice.parameterPieces with _ | ⟨a, _ | ⟨b, _ | ⟨c, rest⟩⟩⟩
      · simp [sliceElemWF, hp]
      · simp [sliceElemWF, hp]
      · exact absurd hp (fun hpp => hnone a b hpp)
      · simp [sliceElemWF, hp]
    rw [hwf]
    simp [Except.isOk, Except.toBool]

/-- C2 counterexample: a slice parameter with exactly two pieces whose
element piece is a string with zero pieces.  Header generation fails on it
although the slice itself has exactly two pieces, refuting "succeeds if and
only if the parameter has exactly two pieces"; the error also carries no
parameter name, only the offending shape and piece count. -/
theorem c2_counterexample :
    c2SliceWithBadElem.kind = reflectSlice
    ∧ c2SliceWithBadElem.parameterPieces.length = 2
    ∧ generateSliceHeader c2SliceWithBadElem =
        .error "invalid string parameter when generating header code (pieces len 0)" := by
  refine ⟨rfl, rfl, ?_⟩
  have h1 : c2SliceWithBadElem.parameterPieces =
      [Parameter.mk "elem" "string" reflectString ⟨true, false⟩ .none [],
       Parameter.mk "len" "int" 2 ⟨true, false⟩ .none []] := rfl
  rw [generateSliceHeader_of_pieces h1]
  have h2 : generateHeaderText
      (Parameter.mk "elem" "string" reflectString ⟨true, false⟩ .none []) =
      .error "invalid string parameter when generating header code (pieces len 0)" := by
    have hks : (Parameter.mk "elem" "string" reflectString
        ⟨true, false⟩ .none []).kind = reflectString := rfl
    rw [generateHeaderText.eq_def, if_neg (by decide), if_pos hks]
    rfl
  rw [h2]

/-- C2 (amended): for a `String` parameter, header generation succeeds
exactly when it has exactly two pieces, and any other piece count yields the
fixed malformed-string error carrying the piece count; for a `Slice`
parameter, any piece count other than two yields the fixed malformed-slice
error, and header generation overall succeeds exactly on well-formed trees —
with two pieces a slice header can still fail when the recursively visited
element subtree contains a malformed `String`/`Slice` node.  The errors
identify the offending shape (and, for strings, the piece count) but not the
parameter's name; no header text is produced on failure. -/
theorem c2_two_piece_header_amended (p : Parameter) :
    (p.kind = reflectSlice → generateHeaderText p = generateSliceHeader p)
    ∧ (p.kind = reflectString → generateHeaderText p = generateStringHeader p)
    ∧ (p.parameterPieces.length ≠ 2 →
        generateSliceHeader p =
          .error "invalid slice parameter when generating header code"
        ∧ generateStringHeader p =
          .error ("invalid string parameter when generating header code (pieces len "
            ++ toString p.parameterPieces.length ++ ")"))
    ∧ (generateStringHeader p).isOk = (p.parameterPieces.length == 2)
    ∧ (generateHeaderText p).isOk = wellFormedHeader p := by
  refine ⟨?_, ?_,
    fun hl => ⟨generateSliceHeader_of_len_ne hl, generateStringHeader_of_len_ne hl⟩,
    generateStringHeader_isOk p, generateHeaderText_isOk p⟩
  · intro hk
    rw [generateHeaderText.eq_def, if_pos hk]
  · intro hk
    have hns : ¬p.kind = reflectSlice := by rw [hk]; decide
    rw [generateHeaderText.eq_def, if_neg hns, if_pos hk]

theorem c2_two_piece_header_amended_witness :
    generateSliceHeader c2SliceOnePiece =
      .error "invalid slice parameter when generating header code"
    ∧ (generateHeaderText c2SliceOnePiece).isOk = wellFormedHeader c2SliceOnePiece :=
  ⟨((c2_two_piece_header_amended c2SliceOnePiece).2.2.1 (by decide)).1,
   (c2_two_piece_header_amended c2SliceOnePiece).2.2.2.2⟩

/-- C6: for a slice parameter with exactly two pieces whose element header
generates successfully, the slice header is exactly one rendering of the
outer slice-header template — register or stack flavor chosen by the slice's
own `Location.InReg` — applied to the wrapper embedding (a) the recursively
generated header text of the element piece and (b) the length header
rendered with the length-template flavor chosen by the length piece's own
`Location.InReg`; the child texts occur only inside that single wrapper
chunk, never as free-standing output. -/
theorem c6_slice_header_composition (p elemPiece lengthPiece : Parameter)
    (th : List Chunk)
    (hk : p.kind = reflectSlice)
    (hp : p.parameterPieces = [elemPiece, lengthPiece])
    (helem : generateHeaderText elemPiece = .ok th) :
    generateSliceHeader p =
      .ok [Chunk.sliceWrapper
        (if p.location.inReg then TemplateId.sliceRegisterHeaderTemplate
         else TemplateId.sliceStackHeaderTemplate)
        p th
        [Chunk.param
          (if lengthPiece.location.inReg then TemplateId.sliceLengthRegisterTemplate
           else TemplateId.sliceLengthStackTemplate)
          lengthPiece]]
    ∧ generateHeaderText p = generateSliceHeader p := by
  constructor
  · have hres : resolveHeaderTemplate p =
        if p.location.inReg then TemplateId.sliceRegisterHeaderTemplate
        else TemplateId.sliceStackHeaderTemplate := by
      unfold resolveHeaderTemplate
      rw [if_neg (by rw [hk]; decide), if_pos hk]
    have hlen2 : generateSliceLengthHeader lengthPiece =
        [Chunk.param
          (if lengthPiece.location.inReg then TemplateId.sliceLengthRegisterTemplate
           else TemplateId.sliceLengthStackTemplate)
          lengthPiece] := by
      unfold generateSliceLengthHeader
      by_cases hb : lengthPiece.location.inReg <;> simp [hb]
    rw [generateSliceHeader_of_pieces hp, helem]
    dsimp only
    rw [hres, hlen2]
  · rw [generateHeaderText.eq_def, if_pos hk]

theorem c6_slice_header_composition_witness :
    generateSliceHeader c6Slice =
      .ok [Chunk.sliceWrapper
        (if c6Slice.location.inReg then TemplateId.sliceRegisterHeaderTemplate
         else TemplateId.sliceStackHeaderTemplate)
        c6Slice [Chunk.param TemplateId.headerTemplate c6Elem]
        [Chunk.param
          (if c6Len.location.inReg then TemplateId.sliceLengthRegisterTemplate
           else TemplateId.sliceLengthStackTemplate)
          c6Len]]
    ∧ generateHeaderText c6Slice = generateSliceHeader c6Slice :=
  c6_slice_header_composition c6Slice c6Elem c6Len
    [Chunk.param TemplateId.headerTemplate c6Elem] rfl rfl
    (by
      rw [generateHeaderText.eq_def, if_neg (by decide), if_neg (by decide),
        if_neg (by decide)]
      rfl)

theorem c8_error_leaves_probe_unchanged_witness :
    (GenerateBPFParamsCode c8ProcInfo c8Probe).probe = c8Probe
    ∧ (GenerateBPFParamsCode c8ProcInfo
        c8Probe).probe.instrumentationInfo.bpfParametersSourceCode =
      c8Probe.instrumentationInfo.bpfParametersSourceCode :=
  c8_error_leaves_probe_unchanged c8ProcInfo c8Probe
    "invalid slice parameter when generating header code"
    (by
      have hs : generateSliceHeader c8BadSlice =
          .error "invalid slice parameter when generating header code" :=
        generateSliceHeader_of_len_ne (by decide)
      have hks : c8BadSlice.kind = reflectSlice := rfl
      have hh : generateHeaderText c8BadSlice = generateSliceHeader c8BadSlice := by
        rw [generateHeaderText.eq_def, if_pos hks]
      have hlist : generateHeadersText [c8BadSlice] =
          .error "invalid slice parameter when generating header code" := by
        rw [generateHeadersText.eq_def]
        dsimp only
        rw [hh, hs]
      have hcode : generateCodeForParams [c8BadSlice] =
          .error "invalid slice parameter when generating header code" := by
        unfold generateCodeForParams
        have hflat : flattenParameters [c8BadSlice] = [c8BadSlice] := rfl
        rw [hflat]
        dsimp only
        rw [hlist]
      have harg : applyFieldCountLimit
          (applyCaptureDepth (c8ProcInfo.functions c8Probe.funcName)
            c8Probe.instrumentationInfo.instrumentationOptions.maxReferenceDepth) =
          [c8BadSlice] := rfl
      have hcap : c8Probe.instrumentationInfo.instrumentationOptions.captureParameters =
          true := rfl
      show (GenerateBPFParamsCode c8ProcInfo c8Probe).err =
        some "invalid slice parameter when generating header code"
      unfold GenerateBPFParamsCode
      rw [if_pos hcap, harg, hcode])

end Codegen
